import Mathlib

/-!
Verification of the Collatz "digit rain" engine against its specification.

The Python sources (collatz.py, collatz2.py, collatz3.py, collatz5.py,
collatz7.py, colltaz1.py, updated.py) are shallowly embedded below:
Python `int` is modelled by `ℤ` (or `ℕ` where the value is a count),
Python `float` quantities (`head_row`, `row_accum`, `dt`) by `ℚ`, and
calls into the `random` module by explicit numeric arguments that select
among the candidates exactly as the library call would.

Definitions come first, theorems afterwards.
-/

/-! ## Sequencer: `collatz_step` (collatz.py line 7, identical in every variant)

Python: `return n // 2 if n % 2 == 0 else 3 * n + 1`.
Lean's `Int` `%` / `/` are Euclidean; for the positive modulus 2 they agree
with Python's `%` and floor-division `//` on all integers. -/

def collatz_step (n : ℤ) : ℤ :=
  if n % 2 = 0 then n / 2 else 3 * n + 1

/-! ## Generators

The generator in colltaz1.py lines 12–18 and updated.py lines 19–25:
`n = start; while True: yield n; if n == 1: break; n = collatz_step(n)`.
Embedded with explicit fuel (the Python loop has no bound of its own);
`genList fuel n` lists the yields, truncated after `fuel` steps when the
iteration has not yet reached 1. -/

def genList : ℕ → ℤ → List ℤ
  | 0, n => [n]
  | fuel + 1, n => n :: (if n = 1 then [] else genList fuel (collatz_step n))

/-- Generator state of collatz3.py lines 20–29:
`n = start; while True: yield n; if n == 1: n = random.getrandbits(128) | 1;
continue; n = collatz_step(n)`. `collatz3_state rng start k` is the k-th
value yielded; `rng k` stands for the draw `random.getrandbits(128)`
consumed when the k-th yield was 1. The stream is total: there is a yield
at every index. -/
def collatz3_state (rng : ℕ → ℕ) (start : ℤ) : ℕ → ℤ
  | 0 => start
  | k + 1 =>
    let n := collatz3_state rng start k
    if n = 1 then ((rng k ||| 1 : ℕ) : ℤ) else collatz_step n

/-! ## ColumnAllocator (collatz.py lines 12–31, identical in collatz7.py)

State: `cols_fit` and `cooldown_ms` are clamped in `__init__`
(`max(1, cols_fit)`, `max(0, cooldown_ms)`); `last_used` is a list of
timestamps initialised to the sentinel `-10_000_000`. -/

/-- Model of Python `max(l, key=f)`: the first element attaining the
maximum key. On the empty list Python raises; we return 0, but every call
site passes `range(cols_fit)` with `cols_fit ≥ 1`. -/
def pyMaxKey (f : ℕ → ℤ) : List ℕ → ℕ
  | [] => 0
  | x :: xs => xs.foldl (fun best c => if f best < f c then c else best) x

structure ColumnAllocator where
  cols_fit : ℕ
  cooldown_ms : ℤ
  last_used : List ℤ
  deriving DecidableEq, Repr

/-- Constructor `ColumnAllocator.__init__` (collatz.py lines 13–16). -/
def ColumnAllocator.make (colsFit : ℕ) (cooldownMs : ℤ) : ColumnAllocator :=
  { cols_fit := max 1 colsFit
    cooldown_ms := max 0 cooldownMs
    last_used := List.replicate (max 1 colsFit) (-10000000) }

/-- Eligible-column list built by the loop in `pick` (collatz.py lines
19–24): skip `avoid`, keep columns whose cooldown has elapsed. -/
def ColumnAllocator.choices (a : ColumnAllocator) (now_ms : ℤ)
    (avoid : Option ℕ) : List ℕ :=
  (List.range a.cols_fit).filter
    (fun c => (avoid ≠ some c : Bool) && decide (a.cooldown_ms ≤ now_ms - a.last_used.getD c 0))

/-- Method `ColumnAllocator.pick` (collatz.py lines 18–31); `r` stands for
the draw consumed by `random.choice` (the element at index `r` modulo the
candidate count). Returns the column and the updated allocator
(`last_used[col] = now_ms`). When no candidate is eligible the fallback is
Python's `max(range(cols_fit), key=lambda c: now_ms - last_used[c])`. -/
def ColumnAllocator.pick (a : ColumnAllocator) (now_ms : ℤ)
    (avoid : Option ℕ) (r : ℕ) : ℕ × ColumnAllocator :=
  let cs := a.choices now_ms avoid
  let col := if cs.isEmpty then
      pyMaxKey (fun c => now_ms - a.last_used.getD c 0) (List.range a.cols_fit)
    else cs.getD (r % cs.length) 0
  (col, { a with last_used := a.last_used.set col now_ms })

/-- Method `CollatzVerticalRain._choose_next_column` (collatz5.py lines
167–172): with more than one column and an avoid column given, choose among
the other columns; otherwise choose uniformly among all columns. -/
def choose_next_column (cols_fit : ℕ) (avoid : Option ℕ) (r : ℕ) : ℕ :=
  match avoid with
  | none => r % cols_fit
  | some a =>
    if cols_fit ≤ 1 then r % cols_fit
    else
      let cs := (List.range cols_fit).filter (fun c => c ≠ a)
      if cs.isEmpty then a else cs.getD (r % cs.length) 0

/-! ## ThreadStream (collatz.py lines 34–105) -/

/-- Truncation of a rational toward zero, Python's `int(float)`. -/
def pyTrunc (q : ℚ) : ℤ := q.num.tdiv q.den

/-- Lifecycle abstraction of the spec (§4.3): `Emitting` while digits
remain to emit, `Done` once the stream reports itself finished
(`offscreen`), `Draining` in between. -/
inductive LifecycleState where
  | Emitting
  | Draining
  | Done
  deriving DecidableEq, Repr

structure ThreadStream where
  value : ℤ
  digits : List Char
  column : ℕ
  row_px : ℕ
  screen_h : ℕ
  rows_per_sec : ℚ
  digit_gap_rows : ℕ
  trigger_emits : ℕ
  head_row : ℚ
  row_accum : ℚ
  rows_until_next_digit : ℤ
  emit_index : ℕ
  emitted_total : ℕ
  done_emitting : Bool
  spawned_next : Bool
  char_buffer : List Char
  deriving DecidableEq, Repr

/-- Constructor `ThreadStream.__init__` (collatz.py lines 40–65); the
`log_starts` print is I/O and carries no state. On the natural-number
inputs used here Python's `max(0, min(column, cols_fit - 1))` is
`min column (cols_fit - 1)`, and `max(0, digit_gap_rows)` is the identity. -/
def ThreadStream.init (value : ℤ) (column cols_fit row_px screen_h : ℕ)
    (rows_per_sec : ℚ) (digit_gap_rows trigger_emits : ℕ) : ThreadStream :=
  { value := value
    digits := value.repr.toList
    column := min column (cols_fit - 1)
    row_px := row_px
    screen_h := screen_h
    rows_per_sec := rows_per_sec
    digit_gap_rows := digit_gap_rows
    trigger_emits := max 1 trigger_emits
    head_row := 0
    row_accum := 1
    rows_until_next_digit := 0
    emit_index := 0
    emitted_total := 0
    done_emitting := false
    spawned_next := false
    char_buffer := [] }

/-- Body of the emission loop in `ThreadStream.update` (collatz.py lines
74–85): consume one whole row; either emit the next digit into the front
of the buffer, mark emission done, or count down the inter-digit gap. -/
def emitBody (s : ThreadStream) : ThreadStream :=
  let s1 := { s with row_accum := s.row_accum - 1 }
  if s1.rows_until_next_digit ≤ 0 then
    if h : s1.emit_index < s1.digits.length then
      { s1 with
        char_buffer := s1.digits.get ⟨s1.emit_index, h⟩ :: s1.char_buffer
        emit_index := s1.emit_index + 1
        emitted_total := s1.emitted_total + 1
        rows_until_next_digit := 1 + (s1.digit_gap_rows : ℤ) }
    else { s1 with done_emitting := true }
  else { s1 with rows_until_next_digit := s1.rows_until_next_digit - 1 }

/-- The loop `while self.row_accum >= 1.0 and not self.done_emitting`
(collatz.py line 74), with explicit fuel. Each pass subtracts exactly 1
from `row_accum`, so `⌊row_accum⌋.toNat` passes suffice; the theorem
`emitLoop_guard_false` below certifies that with such fuel the loop stops
only because the Python guard is false. -/
def emitLoop : ℕ → ThreadStream → ThreadStream
  | 0, s => s
  | fuel + 1, s =>
    if 1 ≤ s.row_accum ∧ s.done_emitting = false then emitLoop fuel (emitBody s)
    else s

/-- Pixel position of the tail (oldest) character:
`int(head_row * row_px) - tail_idx * row_px` (collatz.py line 90). -/
def tailY (s : ThreadStream) : ℤ :=
  pyTrunc (s.head_row * (s.row_px : ℚ)) - ((s.char_buffer.length - 1 : ℕ) : ℤ) * (s.row_px : ℤ)

/-- Top-culling loop of `ThreadStream.update` (collatz.py lines 88–94):
pop the tail while it sits more than one row above the top edge. Fuel is
the buffer length, which bounds the pops. -/
def cullGo : ℕ → ThreadStream → ThreadStream
  | 0, s => s
  | fuel + 1, s =>
    if s.char_buffer ≠ [] ∧ tailY s < -(s.row_px : ℤ) then
      cullGo fuel { s with char_buffer := s.char_buffer.dropLast }
    else s

/-- Method `ThreadStream.update` (collatz.py lines 67–94). -/
def ThreadStream.update (s : ThreadStream) (dt : ℚ) : ThreadStream :=
  let delta := s.rows_per_sec * dt
  let s1 := { s with head_row := s.head_row + delta, row_accum := s.row_accum + delta }
  let s2 := emitLoop (Int.toNat ⌊s1.row_accum⌋) s1
  cullGo s2.char_buffer.length s2

/-- Method `ThreadStream.wants_next_spawn` (collatz.py lines 96–98). -/
def ThreadStream.wants_next_spawn (s : ThreadStream) : Bool :=
  !s.spawned_next && decide (s.trigger_emits ≤ s.emitted_total)

/-- Method `ThreadStream.mark_spawned` (collatz.py lines 100–101). -/
def ThreadStream.mark_spawned (s : ThreadStream) : ThreadStream :=
  { s with spawned_next := true }

/-- Method `ThreadStream.offscreen` (collatz.py lines 103–105). -/
def ThreadStream.offscreen (s : ThreadStream) : Bool :=
  s.done_emitting && s.char_buffer.isEmpty

/-- Lifecycle state read off a `ThreadStream` under the spec's §4.3
abstraction. -/
def ThreadStream.lifecycleState (s : ThreadStream) : LifecycleState :=
  if s.emit_index < s.digits.length then .Emitting
  else if s.offscreen then .Done
  else .Draining

/-- A sequence of `update(dt)` calls. -/
def applyUpdates (dts : List ℚ) (s : ThreadStream) : ThreadStream :=
  dts.foldl ThreadStream.update s

/-- Child value computed by `CollatzThreadedRain._spawn_next_from`
(collatz.py line 185): `nxt = collatz_step(parent.value)`. -/
def spawn_child_value (parent : ThreadStream) : ℤ :=
  collatz_step parent.value

/-- The lifecycle invariant of a `ThreadStream`: the emit cursor never
passes the end of `digits`, and the done flag is raised only with the
cursor at the end. -/
def StreamInv (s : ThreadStream) : Prop :=
  s.emit_index ≤ s.digits.length ∧
    (s.done_emitting = true → s.emit_index = s.digits.length)

/-! ## VerticalNumberStream (collatz7.py lines 43–106)

Same emission machinery as `ThreadStream` but: the head starts two rows
above the top (`head_row = -2.0`), `row_accum` starts at 0, there is no
`emitted_total` counter, and culling is per-digit at the bottom edge —
a single conditional pop per `update`, not a loop. -/

structure VStream where
  value : ℤ
  digits : List Char
  column : ℕ
  row_px : ℕ
  screen_h : ℕ
  rows_per_sec : ℚ
  digit_gap_rows : ℕ
  head_row : ℚ
  row_accum : ℚ
  rows_until_next_digit : ℤ
  emit_index : ℕ
  done_emitting : Bool
  spawned_next : Bool
  char_buffer : List Char
  deriving DecidableEq, Repr

/-- Constructor `VerticalNumberStream.__init__` (collatz7.py lines 49–75). -/
def VStream.init (value : ℤ) (column cols_fit row_px screen_h : ℕ)
    (rows_per_sec : ℚ) (digit_gap_rows : ℕ) : VStream :=
  { value := value
    digits := value.repr.toList
    column := min column (cols_fit - 1)
    row_px := row_px
    screen_h := screen_h
    rows_per_sec := rows_per_sec
    digit_gap_rows := digit_gap_rows
    head_row := -2
    row_accum := 0
    rows_until_next_digit := 0
    emit_index := 0
    done_emitting := false
    spawned_next := false
    char_buffer := [] }

/-- Body of the emission loop in `VerticalNumberStream.update`
(collatz7.py lines 83–93). -/
def vEmitBody (s : VStream) : VStream :=
  let s1 := { s with row_accum := s.row_accum - 1 }
  if s1.rows_until_next_digit ≤ 0 then
    if h : s1.emit_index < s1.digits.length then
      { s1 with
        char_buffer := s1.digits.get ⟨s1.emit_index, h⟩ :: s1.char_buffer
        emit_index := s1.emit_index + 1
        rows_until_next_digit := 1 + (s1.digit_gap_rows : ℤ) }
    else { s1 with done_emitting := true }
  else { s1 with rows_until_next_digit := s1.rows_until_next_digit - 1 }

/-- The emission loop of collatz7.py line 83 with explicit fuel, as for
`emitLoop`. -/
def vEmitLoop : ℕ → VStream → VStream
  | 0, s => s
  | fuel + 1, s =>
    if 1 ≤ s.row_accum ∧ s.done_emitting = false then vEmitLoop fuel (vEmitBody s)
    else s

/-- Tail pixel position, collatz7.py line 98. -/
def vTailY (s : VStream) : ℤ :=
  pyTrunc (s.head_row * (s.row_px : ℚ)) - ((s.char_buffer.length - 1 : ℕ) : ℤ) * (s.row_px : ℤ)

/-- Method `VerticalNumberStream.update` (collatz7.py lines 77–100);
bottom culling pops at most one tail digit per call. -/
def VStream.update (s : VStream) (dt : ℚ) : VStream :=
  let delta := s.rows_per_sec * dt
  let s1 := { s with head_row := s.head_row + delta, row_accum := s.row_accum + delta }
  let s2 := vEmitLoop (Int.toNat ⌊s1.row_accum⌋) s1
  if s2.char_buffer ≠ [] ∧ (s2.screen_h : ℤ) - 1 ≤ vTailY s2 then
    { s2 with char_buffer := s2.char_buffer.dropLast }
  else s2

/-- Method `VerticalNumberStream.offscreen` (collatz7.py lines 105–106). -/
def VStream.offscreen (s : VStream) : Bool :=
  s.done_emitting && s.char_buffer.isEmpty

/-- A sequence of `update(dt)` calls on a `VStream`. -/
def vApplyUpdates (dts : List ℚ) (s : VStream) : VStream :=
  dts.foldl VStream.update s

/-- Lifecycle invariant of a `VStream`, as `StreamInv`. -/
def VStreamInv (s : VStream) : Prop :=
  s.emit_index ≤ s.digits.length ∧
    (s.done_emitting = true → s.emit_index = s.digits.length)

/-! ## Startup validation and seeding -/

/-- Decimal digit count of `abs(n)` as Python's `len(str(abs(n)))`. -/
def pyDigitCount (n : ℕ) : ℕ := (Nat.toDigits 10 n).length

/-- Startup validation of `--start` in collatz2.py main, lines 204–215.
The input is the outcome of the external parse `int(args.start, 10)`:
`none` when `--start` was absent, `some none` when the parse raised,
`some (some n)` when it produced `n`. The result is `none` when the
program prints an error and returns before any engine state is built,
otherwise `some fixed_start`. -/
def collatz2_validate (parsed : Option (Option ℤ)) (min_digits : ℕ) :
    Option (Option ℤ) :=
  match parsed with
  | none => some none
  | some none => none
  | some (some n) =>
    if pyDigitCount n.natAbs < max 10 min_digits then none
    else some (some (if n < 1 then 1 else n))

/-- Startup validation of `--start` in updated.py main, lines 225–233:
same shape as `collatz2_validate` but with no digit-count check; values
below 1 are clamped to 1. -/
def updated_validate (parsed : Option (Option ℤ)) : Option (Option ℤ) :=
  match parsed with
  | none => some none
  | some none => none
  | some (some n) => some (some (if n < 1 then 1 else n))

/-- Method `CollatzThreadedRain._seed_value` (collatz.py lines 162–169).
`start` is the parsed `--start` value when given; `r1` selects the digit
count drawn by `random.randint(dmin, dmax)` and `r2` the draw of
`random.randrange(lo, hi + 1)`, both reduced modulo the size of the
respective range exactly as a uniform draw lands inside it. -/
def seed_value (start : Option ℤ) (min_digits max_digits : ℕ) (r1 r2 : ℕ) : ℤ :=
  match start with
  | some s => max 1 s
  | none =>
    let dmin := max 10 min_digits
    let dmax := max dmin max_digits
    let k := dmin + r1 % (dmax - dmin + 1)
    let lo : ℕ := 10 ^ (k - 1)
    let hi : ℕ := 10 ^ k - 1
    ((lo + r2 % (hi + 1 - lo) : ℕ) : ℤ)

/-- The integers the collatz.py engine ever holds as a stream `value`:
seeds produced by `_seed_value`, and children produced from a held value
by `_spawn_next_from` via `collatz_step`. -/
inductive EngineValue (start : Option ℤ) (min_digits max_digits : ℕ) : ℤ → Prop
  | seed (r1 r2 : ℕ) :
      EngineValue start min_digits max_digits (seed_value start min_digits max_digits r1 r2)
  | child {n : ℤ} :
      EngineValue start min_digits max_digits n →
      EngineValue start min_digits max_digits (collatz_step n)

/-! ## Helper theorems -/

/-- Helper: the step maps positive integers to positive integers. -/
theorem collatz_step_pos {n : ℤ} (hn : 0 < n) : 0 < collatz_step n := by
  unfold collatz_step
  split
  · rename_i h
    obtain ⟨k, hk⟩ := Int.dvd_of_emod_eq_zero h
    subst hk
    omega
  · linarith

/-- Helper: on even input the division is exact (no rounding). -/
theorem collatz_step_even_exact {n : ℤ} (h : n % 2 = 0) :
    2 * collatz_step n = n := by
  unfold collatz_step
  simp only [h, if_pos]
  omega

/-- Helper: a fold whose step always keeps either the accumulator or the
new element stays inside the original elements. -/
theorem foldl_choice_mem (f : ℕ → ℕ → ℕ) (hf : ∀ b c, f b c = b ∨ f b c = c) :
    ∀ (xs : List ℕ) (x : ℕ), xs.foldl f x ∈ x :: xs := by
  intro xs
  induction xs with
  | nil => intro x; simp
  | cons y ys ih =>
    intro x
    have h := ih (f x y)
    rcases hf x y with h1 | h1 <;> rw [List.foldl_cons] <;>
      rcases List.mem_cons.mp h with h2 | h2 <;> simp [h1] at h2 ⊢ <;> simp [h2]

/-- Helper: `pyMaxKey` over a non-empty list returns one of its elements. -/
theorem pyMaxKey_mem (f : ℕ → ℤ) (x : ℕ) (xs : List ℕ) :
    pyMaxKey f (x :: xs) ∈ x :: xs := by
  unfold pyMaxKey
  exact foldl_choice_mem _ (by intro b c; by_cases h : f b < f c <;> simp [h]) xs x

/-- Helper: fields of a `ThreadStream` not touched by one pass of the
emission loop body; `row_accum` drops by exactly 1. -/
theorem emitBody_fields (s : ThreadStream) :
    (emitBody s).digits = s.digits ∧ (emitBody s).spawned_next = s.spawned_next ∧
    (emitBody s).trigger_emits = s.trigger_emits ∧ (emitBody s).value = s.value ∧
    (emitBody s).row_accum = s.row_accum - 1 := by
  simp only [emitBody]
  split
  · split <;> exact ⟨rfl, rfl, rfl, rfl, rfl⟩
  · exact ⟨rfl, rfl, rfl, rfl, rfl⟩

/-- Helper: the emission loop never touches `digits`, `spawned_next`,
`trigger_emits` or `value`. -/
theorem emitLoop_fields (f : ℕ) (s : ThreadStream) :
    (emitLoop f s).digits = s.digits ∧ (emitLoop f s).spawned_next = s.spawned_next ∧
    (emitLoop f s).trigger_emits = s.trigger_emits ∧ (emitLoop f s).value = s.value := by
  induction f generalizing s with
  | zero => exact ⟨rfl, rfl, rfl, rfl⟩
  | succ f ih =>
    rw [emitLoop]
    split
    · obtain ⟨h1, h2, h3, h4⟩ := ih (emitBody s)
      obtain ⟨g1, g2, g3, g4, _⟩ := emitBody_fields s
      exact ⟨h1.trans g1, h2.trans g2, h3.trans g3, h4.trans g4⟩
    · exact ⟨rfl, rfl, rfl, rfl⟩

/-- Helper: the culling loop changes only `char_buffer`. -/
theorem cullGo_fields (f : ℕ) (s : ThreadStream) :
    (cullGo f s).digits = s.digits ∧ (cullGo f s).spawned_next = s.spawned_next ∧
    (cullGo f s).trigger_emits = s.trigger_emits ∧ (cullGo f s).value = s.value ∧
    (cullGo f s).emit_index = s.emit_index ∧ (cullGo f s).done_emitting = s.done_emitting ∧
    (cullGo f s).emitted_total = s.emitted_total := by
  induction f generalizing s with
  | zero => exact ⟨rfl, rfl, rfl, rfl, rfl, rfl, rfl⟩
  | succ f ih =>
    rw [cullGo]
    split
    · obtain ⟨h1, h2, h3, h4, h5, h6, h7⟩ := ih { s with char_buffer := s.char_buffer.dropLast }
      exact ⟨h1, h2, h3, h4, h5, h6, h7⟩
    · exact ⟨rfl, rfl, rfl, rfl, rfl, rfl, rfl⟩

/-- Helper: `update` never touches `digits`, `spawned_next`,
`trigger_emits` or `value`. -/
theorem update_fields (s : ThreadStream) (dt : ℚ) :
    (s.update dt).digits = s.digits ∧ (s.update dt).spawned_next = s.spawned_next ∧
    (s.update dt).trigger_emits = s.trigger_emits ∧ (s.update dt).value = s.value := by
  unfold ThreadStream.update
  obtain ⟨c1, c2, c3, c4, _, _, _⟩ := cullGo_fields
    (emitLoop (Int.toNat ⌊s.row_accum + s.rows_per_sec * dt⌋)
      { s with head_row := s.head_row + s.rows_per_sec * dt,
               row_accum := s.row_accum + s.rows_per_sec * dt }).char_buffer.length
    (emitLoop (Int.toNat ⌊s.row_accum + s.rows_per_sec * dt⌋)
      { s with head_row := s.head_row + s.rows_per_sec * dt,
               row_accum := s.row_accum + s.rows_per_sec * dt })
  obtain ⟨e1, e2, e3, e4⟩ := emitLoop_fields (Int.toNat ⌊s.row_accum + s.rows_per_sec * dt⌋)
    { s with head_row := s.head_row + s.rows_per_sec * dt,
             row_accum := s.row_accum + s.rows_per_sec * dt }
  exact ⟨c1.trans e1, c2.trans e2, c3.trans e3, c4.trans e4⟩

/-- Helper: a sequence of updates never touches `digits`, `spawned_next`,
`trigger_emits` or `value`. -/
theorem applyUpdates_fields (dts : List ℚ) (s : ThreadStream) :
    (applyUpdates dts s).digits = s.digits ∧
    (applyUpdates dts s).spawned_next = s.spawned_next ∧
    (applyUpdates dts s).trigger_emits = s.trigger_emits ∧
    (applyUpdates dts s).value = s.value := by
  induction dts generalizing s with
  | nil => exact ⟨rfl, rfl, rfl, rfl⟩
  | cons dt dts ih =>
    obtain ⟨h1, h2, h3, h4⟩ := ih (s.update dt)
    obtain ⟨g1, g2, g3, g4⟩ := update_fields s dt
    exact ⟨h1.trans g1, h2.trans g2, h3.trans g3, h4.trans g4⟩

/-- Helper: with fuel `⌊row_accum⌋.toNat` the emission loop stops only
because the Python `while` guard is false, so the fueled loop computes the
same state as the unbounded loop. -/
theorem emitLoop_guard_false (f : ℕ) (s : ThreadStream)
    (h : Int.toNat ⌊s.row_accum⌋ ≤ f) :
    (emitLoop f s).row_accum < 1 ∨ (emitLoop f s).done_emitting = true := by
  induction f generalizing s with
  | zero =>
    left
    simp only [emitLoop]
    by_contra h2
    push_neg at h2
    have h3 : (1 : ℤ) ≤ ⌊s.row_accum⌋ := Int.le_floor.mpr (by exact_mod_cast h2)
    omega
  | succ f ih =>
    rw [emitLoop]
    split
    · rename_i hg
      apply ih
      obtain ⟨-, -, -, -, hacc⟩ := emitBody_fields s
      rw [hacc, Int.floor_sub_one]
      have h1 : (1 : ℤ) ≤ ⌊s.row_accum⌋ := Int.le_floor.mpr (by exact_mod_cast hg.1)
      omega
    · rename_i hg
      rw [not_and_or] at hg
      rcases hg with hg | hg
      · left; exact lt_of_not_le hg
      · right; simpa using hg

/-- Helper: one pass of the emission loop body preserves the lifecycle
invariant. -/
theorem streamInv_emitBody {s : ThreadStream} (h : StreamInv s) :
    StreamInv (emitBody s) := by
  obtain ⟨h1, h2⟩ := h
  simp only [StreamInv, emitBody]
  split
  · split
    · rename_i hlt
      refine ⟨hlt, fun hd => ?_⟩
      have h3 := h2 hd
      dsimp only at hlt ⊢
      omega
    · rename_i hnlt
      refine ⟨h1, fun _ => ?_⟩
      dsimp only at hnlt ⊢
      omega
  · exact ⟨h1, h2⟩

/-- Helper: the emission loop preserves the lifecycle invariant. -/
theorem streamInv_emitLoop (f : ℕ) {s : ThreadStream} (h : StreamInv s) :
    StreamInv (emitLoop f s) := by
  induction f generalizing s with
  | zero => exact h
  | succ f ih =>
    rw [emitLoop]
    split
    · exact ih (streamInv_emitBody h)
    · exact h

/-- Helper: culling preserves the lifecycle invariant. -/
theorem streamInv_cullGo (f : ℕ) {s : ThreadStream} (h : StreamInv s) :
    StreamInv (cullGo f s) := by
  obtain ⟨c1, -, -, -, c5, c6, -⟩ := cullGo_fields f s
  exact ⟨by rw [c5, c1]; exact h.1, by rw [c6, c5, c1]; exact h.2⟩

/-- Helper: `update` preserves the lifecycle invariant. -/
theorem streamInv_update {s : ThreadStream} (h : StreamInv s) (dt : ℚ) :
    StreamInv (s.update dt) := by
  unfold ThreadStream.update
  apply streamInv_cullGo
  apply streamInv_emitLoop
  exact ⟨h.1, h.2⟩

/-- Helper: any sequence of updates preserves the lifecycle invariant. -/
theorem streamInv_applyUpdates (dts : List ℚ) {s : ThreadStream} (h : StreamInv s) :
    StreamInv (applyUpdates dts s) := by
  induction dts generalizing s with
  | nil => exact h
  | cons dt dts ih => exact ih (streamInv_update h dt)

/-- Helper: a freshly constructed `ThreadStream` satisfies the lifecycle
invariant. -/
theorem streamInv_init (value : ℤ) (column cols_fit row_px screen_h : ℕ)
    (rows_per_sec : ℚ) (digit_gap_rows trigger_emits : ℕ) :
    StreamInv (ThreadStream.init value column cols_fit row_px screen_h
      rows_per_sec digit_gap_rows trigger_emits) := by
  exact ⟨Nat.zero_le _, by intro h; simp [ThreadStream.init] at h⟩

/-- Helper: fields of a `VStream` not touched by one pass of its emission
loop body. -/
theorem vEmitBody_fields (s : VStream) :
    (vEmitBody s).digits = s.digits ∧ (vEmitBody s).spawned_next = s.spawned_next ∧
    (vEmitBody s).value = s.value ∧ (vEmitBody s).row_accum = s.row_accum - 1 := by
  simp only [vEmitBody]
  split
  · split <;> exact ⟨rfl, rfl, rfl, rfl⟩
  · exact ⟨rfl, rfl, rfl, rfl⟩

/-- Helper: one pass of the `VStream` emission loop body preserves the
lifecycle invariant. -/
theorem vStreamInv_vEmitBody {s : VStream} (h : VStreamInv s) :
    VStreamInv (vEmitBody s) := by
  obtain ⟨h1, h2⟩ := h
  simp only [VStreamInv, vEmitBody]
  split
  · split
    · rename_i hlt
      refine ⟨hlt, fun hd => ?_⟩
      have h3 := h2 hd
      dsimp only at hlt ⊢
      omega
    · rename_i hnlt
      refine ⟨h1, fun _ => ?_⟩
      dsimp only at hnlt ⊢
      omega
  · exact ⟨h1, h2⟩

/-- Helper: the `VStream` emission loop preserves the lifecycle
invariant. -/
theorem vStreamInv_vEmitLoop (f : ℕ) {s : VStream} (h : VStreamInv s) :
    VStreamInv (vEmitLoop f s) := by
  induction f generalizing s with
  | zero => exact h
  | succ f ih =>
    rw [vEmitLoop]
    split
    · exact ih (vStreamInv_vEmitBody h)
    · exact h

/-- Helper: `VStream.update` preserves the lifecycle invariant (the
bottom-cull branch changes only `char_buffer`). -/
theorem vStreamInv_update {s : VStream} (h : VStreamInv s) (dt : ℚ) :
    VStreamInv (s.update dt) := by
  simp only [VStream.update]
  have h2 := @vStreamInv_vEmitLoop (Int.toNat ⌊s.row_accum + s.rows_per_sec * dt⌋)
    { s with head_row := s.head_row + s.rows_per_sec * dt,
             row_accum := s.row_accum + s.rows_per_sec * dt } ⟨h.1, h.2⟩
  split
  · exact ⟨h2.1, h2.2⟩
  · exact h2

/-- Helper: any sequence of `VStream` updates preserves the lifecycle
invariant. -/
theorem vStreamInv_vApplyUpdates (dts : List ℚ) {s : VStream} (h : VStreamInv s) :
    VStreamInv (vApplyUpdates dts s) := by
  induction dts generalizing s with
  | nil => exact h
  | cons dt dts ih => exact ih (vStreamInv_update h dt)

/-- Helper: a freshly constructed `VStream` satisfies the lifecycle
invariant. -/
theorem vStreamInv_init (value : ℤ) (column cols_fit row_px screen_h : ℕ)
    (rows_per_sec : ℚ) (digit_gap_rows : ℕ) :
    VStreamInv (VStream.init value column cols_fit row_px screen_h
      rows_per_sec digit_gap_rows) := by
  exact ⟨Nat.zero_le _, by intro h; simp [VStream.init] at h⟩

/-- Helper: `List.getD` at an index below the length is a member. -/
theorem list_getD_mem {l : List ℕ} {i : ℕ} (d : ℕ) (h : i < l.length) :
    l.getD i d ∈ l := by
  induction l generalizing i with
  | nil => simp at h
  | cons x xs ih =>
    cases i with
    | zero => simp
    | succ j =>
      simp only [List.getD_cons_succ, List.mem_cons]
      right
      exact ih (by simpa using h)

/-- Helper: every eligible candidate is a real column different from the
avoided one. -/
theorem choices_spec (a : ColumnAllocator) (now_ms : ℤ) (avoid : Option ℕ)
    (c : ℕ) (h : c ∈ a.choices now_ms avoid) :
    c < a.cols_fit ∧ avoid ≠ some c := by
  unfold ColumnAllocator.choices at h
  obtain ⟨hr, hf⟩ := List.mem_filter.mp h
  refine ⟨List.mem_range.mp hr, ?_⟩
  simp only [Bool.and_eq_true, decide_eq_true_eq] at hf
  exact hf.1

/-- Helper: `pyMaxKey` over a non-empty list of naturals below `n` stays
below `n`. -/
theorem pyMaxKey_range_lt (f : ℕ → ℤ) (n : ℕ) (hn : 1 ≤ n) :
    pyMaxKey f (List.range n) < n := by
  obtain ⟨m, rfl⟩ := Nat.exists_eq_add_of_le hn
  have hr : List.range (1 + m) = 0 :: List.map (· + 1) (List.range m) := by
    rw [Nat.add_comm]
    simp [List.range_succ_eq_map]
  rw [hr]
  have hmem := pyMaxKey_mem f 0 (List.map (· + 1) (List.range m))
  rcases List.mem_cons.mp hmem with h | h
  · omega
  · obtain ⟨j, hj, hjeq⟩ := List.mem_map.mp h
    have := List.mem_range.mp hj
    omega

/-- Helper: the stream of §8.5 — value 27, gap 0, 1 row per second,
trigger 2 — as an explicit state. -/
theorem ts27_init : ThreadStream.init 27 0 4 10 720 1 0 2 =
    { value := 27, digits := ['2','7'], column := 0, row_px := 10, screen_h := 720,
      rows_per_sec := 1, digit_gap_rows := 0, trigger_emits := 2,
      head_row := 0, row_accum := 1, rows_until_next_digit := 0,
      emit_index := 0, emitted_total := 0, done_emitting := false,
      spawned_next := false, char_buffer := [] } := by
  have hd : (27 : ℤ).repr.data = ['2','7'] := by decide
  simp [ThreadStream.init, hd]

/-- Helper: state of the value-27 stream after the 1st `update(1.0)`. -/
theorem ts27_u1 : ThreadStream.update
    { value := 27, digits := ['2','7'], column := 0, row_px := 10, screen_h := 720,
      rows_per_sec := 1, digit_gap_rows := 0, trigger_emits := 2,
      head_row := 0, row_accum := 1, rows_until_next_digit := 0,
      emit_index := 0, emitted_total := 0, done_emitting := false,
      spawned_next := false, char_buffer := [] } 1 =
    { value := 27, digits := ['2','7'], column := 0, row_px := 10, screen_h := 720,
      rows_per_sec := 1, digit_gap_rows := 0, trigger_emits := 2,
      head_row := 1, row_accum := 0, rows_until_next_digit := 0,
      emit_index := 1, emitted_total := 1, done_emitting := false,
      spawned_next := false, char_buffer := ['2'] } := by
  norm_num [ThreadStream.update, emitLoop, emitBody, cullGo, tailY, pyTrunc]

/-- Helper: state of the value-27 stream after the 2nd `update(1.0)`. -/
theorem ts27_u2 : ThreadStream.update
    { value := 27, digits := ['2','7'], column := 0, row_px := 10, screen_h := 720,
      rows_per_sec := 1, digit_gap_rows := 0, trigger_emits := 2,
      head_row := 1, row_accum := 0, rows_until_next_digit := 0,
      emit_index := 1, emitted_total := 1, done_emitting := false,
      spawned_next := false, char_buffer := ['2'] } 1 =
    { value := 27, digits := ['2','7'], column := 0, row_px := 10, screen_h := 720,
      rows_per_sec := 1, digit_gap_rows := 0, trigger_emits := 2,
      head_row := 2, row_accum := 0, rows_until_next_digit := 1,
      emit_index := 2, emitted_total := 2, done_emitting := false,
      spawned_next := false, char_buffer := ['7','2'] } := by
  norm_num [ThreadStream.update, emitLoop, emitBody, cullGo, tailY, pyTrunc]

/-- Helper: state of the value-27 stream after the 3rd `update(1.0)`. -/
theorem ts27_u3 : ThreadStream.update
    { value := 27, digits := ['2','7'], column := 0, row_px := 10, screen_h := 720,
      rows_per_sec := 1, digit_gap_rows := 0, trigger_emits := 2,
      head_row := 2, row_accum := 0, rows_until_next_digit := 1,
      emit_index := 2, emitted_total := 2, done_emitting := false,
      spawned_next := false, char_buffer := ['7','2'] } 1 =
    { value := 27, digits := ['2','7'], column := 0, row_px := 10, screen_h := 720,
      rows_per_sec := 1, digit_gap_rows := 0, trigger_emits := 2,
      head_row := 3, row_accum := 0, rows_until_next_digit := 0,
      emit_index := 2, emitted_total := 2, done_emitting := false,
      spawned_next := false, char_buffer := ['7','2'] } := by
  norm_num [ThreadStream.update, emitLoop, emitBody, cullGo, tailY, pyTrunc]

/-- Helper: state of the value-27 stream after the 4th `update(1.0)`;
emission is finished (`done_emitting`), the buffer still holds both
digits. -/
theorem ts27_u4 : ThreadStream.update
    { value := 27, digits := ['2','7'], column := 0, row_px := 10, screen_h := 720,
      rows_per_sec := 1, digit_gap_rows := 0, trigger_emits := 2,
      head_row := 3, row_accum := 0, rows_until_next_digit := 0,
      emit_index := 2, emitted_total := 2, done_emitting := false,
      spawned_next := false, char_buffer := ['7','2'] } 1 =
    { value := 27, digits := ['2','7'], column := 0, row_px := 10, screen_h := 720,
      rows_per_sec := 1, digit_gap_rows := 0, trigger_emits := 2,
      head_row := 4, row_accum := 0, rows_until_next_digit := 0,
      emit_index := 2, emitted_total := 2, done_emitting := true,
      spawned_next := false, char_buffer := ['7','2'] } := by
  norm_num [ThreadStream.update, emitLoop, emitBody, cullGo, tailY, pyTrunc]

/-- Helper: a small collatz7 stream — value 1, one column, row 10 px,
screen 5 px — as an explicit state. -/
theorem vs1_init : VStream.init 1 0 1 10 5 1 0 =
    { value := 1, digits := ['1'], column := 0, row_px := 10, screen_h := 5,
      rows_per_sec := 1, digit_gap_rows := 0,
      head_row := -2, row_accum := 0, rows_until_next_digit := 0,
      emit_index := 0, done_emitting := false,
      spawned_next := false, char_buffer := [] } := by
  have hd : (1 : ℤ).repr.data = ['1'] := by decide
  simp [VStream.init, hd]

/-- Helper: the small collatz7 stream after the 1st `update(1.0)`: the
digit is emitted. -/
theorem vs1_u1 : VStream.update
    { value := 1, digits := ['1'], column := 0, row_px := 10, screen_h := 5,
      rows_per_sec := 1, digit_gap_rows := 0,
      head_row := -2, row_accum := 0, rows_until_next_digit := 0,
      emit_index := 0, done_emitting := false,
      spawned_next := false, char_buffer := [] } 1 =
    { value := 1, digits := ['1'], column := 0, row_px := 10, screen_h := 5,
      rows_per_sec := 1, digit_gap_rows := 0,
      head_row := -1, row_accum := 0, rows_until_next_digit := 1,
      emit_index := 1, done_emitting := false,
      spawned_next := false, char_buffer := ['1'] } := by
  norm_num [VStream.update, vEmitLoop, vEmitBody, vTailY, pyTrunc]

/-- Helper: the small collatz7 stream after the 2nd `update(1.0)`: gap
countdown only. -/
theorem vs1_u2 : VStream.update
    { value := 1, digits := ['1'], column := 0, row_px := 10, screen_h := 5,
      rows_per_sec := 1, digit_gap_rows := 0,
      head_row := -1, row_accum := 0, rows_until_next_digit := 1,
      emit_index := 1, done_emitting := false,
      spawned_next := false, char_buffer := ['1'] } 1 =
    { value := 1, digits := ['1'], column := 0, row_px := 10, screen_h := 5,
      rows_per_sec := 1, digit_gap_rows := 0,
      head_row := 0, row_accum := 0, rows_until_next_digit := 0,
      emit_index := 1, done_emitting := false,
      spawned_next := false, char_buffer := ['1'] } := by
  norm_num [VStream.update, vEmitLoop, vEmitBody, vTailY, pyTrunc]

/-- Helper: the small collatz7 stream after the 3rd `update(1.0)`:
emission finishes and the bottom cull empties the buffer, so the stream
is offscreen. -/
theorem vs1_u3 : VStream.update
    { value := 1, digits := ['1'], column := 0, row_px := 10, screen_h := 5,
      rows_per_sec := 1, digit_gap_rows := 0,
      head_row := 0, row_accum := 0, rows_until_next_digit := 0,
      emit_index := 1, done_emitting := false,
      spawned_next := false, char_buffer := ['1'] } 1 =
    { value := 1, digits := ['1'], column := 0, row_px := 10, screen_h := 5,
      rows_per_sec := 1, digit_gap_rows := 0,
      head_row := 1, row_accum := 0, rows_until_next_digit := 0,
      emit_index := 1, done_emitting := true,
      spawned_next := false, char_buffer := [] } := by
  norm_num [VStream.update, vEmitLoop, vEmitBody, vTailY, pyTrunc]

/-! ## Claim theorems -/

/-- Claim C1: for every positive integer `n` the Sequencer step returns
`n / 2` when `n` is even (and the halving is exact — no rounding) and
`3n + 1` when `n` is odd; the result is again a positive integer, so the
step is total and never fails on positive input. -/
theorem collatz_step_meets_sequencer_contract (n : ℤ) (h : 0 < n) :
    (n % 2 = 0 → collatz_step n = n / 2 ∧ 2 * collatz_step n = n) ∧
    (n % 2 ≠ 0 → collatz_step n = 3 * n + 1) ∧
    0 < collatz_step n := by
  refine ⟨fun he => ⟨?_, collatz_step_even_exact he⟩, fun ho => ?_, collatz_step_pos h⟩
  · unfold collatz_step
    rw [if_pos he]
  · unfold collatz_step
    rw [if_neg ho]

/-- Witness for C1 at the concrete inputs 6 (even) and 7 (odd). -/
theorem collatz_step_meets_sequencer_contract_witness :
    0 < (6 : ℤ) ∧ (collatz_step 6 = 6 / 2 ∧ 2 * collatz_step 6 = 6) ∧
    0 < collatz_step 6 ∧ 0 < (7 : ℤ) ∧ collatz_step 7 = 3 * 7 + 1 :=
  ⟨by decide,
   (collatz_step_meets_sequencer_contract 6 (by decide)).1 (by decide),
   (collatz_step_meets_sequencer_contract 6 (by decide)).2.2,
   by decide,
   (collatz_step_meets_sequencer_contract 7 (by decide)).2.1 (by decide)⟩

/-- Claim C7: for every allocator state with at least one column (the
constructor guarantees `cols_fit ≥ 1`), every timestamp, every avoid
argument and every random draw, `pick` returns a column in
`[0, cols_fit)` — also under cooldown saturation, where the
least-recently-used fallback applies. -/
theorem pick_always_returns_valid_column (a : ColumnAllocator) (now_ms : ℤ)
    (avoid : Option ℕ) (r : ℕ) (h : 1 ≤ a.cols_fit) :
    (a.pick now_ms avoid r).1 < a.cols_fit := by
  unfold ColumnAllocator.pick
  dsimp only
  split
  · exact pyMaxKey_range_lt _ _ h
  · rename_i hne
    have hnil : a.choices now_ms avoid ≠ [] := by
      intro hc
      rw [hc] at hne
      simp at hne
    have hlen : 0 < (a.choices now_ms avoid).length := List.length_pos.mpr hnil
    have hmem := list_getD_mem 0 (Nat.mod_lt r hlen)
    exact (choices_spec _ _ _ _ hmem).1

/-- Witness for C7 on a freshly constructed three-column allocator with
an avoided column. -/
theorem pick_always_returns_valid_column_witness :
    1 ≤ (ColumnAllocator.make 3 100).cols_fit ∧
    ((ColumnAllocator.make 3 100).pick 0 (some 1) 5).1 <
      (ColumnAllocator.make 3 100).cols_fit :=
  ⟨by decide, pick_always_returns_valid_column (ColumnAllocator.make 3 100) 0 (some 1) 5 (by decide)⟩

/-- Claim C2 counterexample: with `colsFit = 2 > 1` and cooldown 1000 ms,
pick column 0 at t = 0 avoiding column 1 (deterministic: the eligible list
is the singleton `[0]`), then pick again at t = 1 avoiding column 1.  No
column is outside the cooldown, so the least-recently-used fallback runs —
over all columns, `avoid` included — and returns column 1, the avoided
column.  This falsifies the claim that the returned column never equals
`avoid` when the fallback is taken. -/
theorem pick_fallback_returns_avoid_cex :
    1 < (ColumnAllocator.make 2 1000).cols_fit ∧
    ((ColumnAllocator.make 2 1000).pick 0 (some 1) 0).1 = 0 ∧
    (((ColumnAllocator.make 2 1000).pick 0 (some 1) 0).2.pick 1 (some 1) 0).1 = 1 := by
  decide

/-- Claim C2 (amended): when at least one column both differs from
`avoid` and has its cooldown elapsed — the eligible list is non-empty —
the picked column differs from `avoid`.  (Under cooldown saturation the
fallback ranges over all columns and can return `avoid`.) -/
theorem pick_avoids_given_eligible_candidate (a : ColumnAllocator)
    (now_ms : ℤ) (av r : ℕ) (h : a.choices now_ms (some av) ≠ []) :
    (a.pick now_ms (some av) r).1 ≠ av := by
  unfold ColumnAllocator.pick
  dsimp only
  split
  · rename_i hemp
    exact absurd (List.isEmpty_iff.mp hemp) h
  · have hlen : 0 < (a.choices now_ms (some av)).length := List.length_pos.mpr h
    have hmem := list_getD_mem 0 (Nat.mod_lt r hlen)
    have hav := (choices_spec _ _ _ _ hmem).2
    intro heq
    exact hav (by rw [heq])

/-- Witness for the amended C2 on a fresh two-column allocator. -/
theorem pick_avoids_given_eligible_candidate_witness :
    (ColumnAllocator.make 2 1000).choices 0 (some 1) ≠ [] ∧
    ((ColumnAllocator.make 2 1000).pick 0 (some 1) 7).1 ≠ 1 :=
  ⟨by decide, pick_avoids_given_eligible_candidate (ColumnAllocator.make 2 1000) 0 1 7 (by decide)⟩

/-- Claim C8: with `colsFit = 1` and `cooldownMs = 1000`, `pick` at
`nowMs = 0` returns column 0 (the sentinel makes the one column eligible)
and a following `pick` at `nowMs = 500` also returns column 0, via the
least-recently-used fallback since the cooldown has not elapsed — for
every pair of random draws. -/
theorem cols1_cooldown_scenario_returns_zero (r1 r2 : ℕ) :
    ((ColumnAllocator.make 1 1000).pick 0 none r1).1 = 0 ∧
    (((ColumnAllocator.make 1 1000).pick 0 none r1).2.pick 500 none r2).1 = 0 := by
  have hcs : (ColumnAllocator.make 1 1000).choices 0 none = [0] := by decide
  have h1 : (ColumnAllocator.make 1 1000).pick 0 none r1 =
      (0, { cols_fit := 1, cooldown_ms := 1000, last_used := [0] }) := by
    unfold ColumnAllocator.pick
    rw [hcs]
    norm_num [ColumnAllocator.make, Nat.mod_one]
  have hcs2 : ColumnAllocator.choices
      { cols_fit := 1, cooldown_ms := 1000, last_used := [0] } 500 none = [] := by
    decide
  refine ⟨by rw [h1], ?_⟩
  rw [h1]
  unfold ColumnAllocator.pick
  rw [hcs2]
  dsimp only
  rw [if_pos]
  · decide
  · decide

/-- Claim C3: after any sequence of `update` calls from construction, a
stream — both the collatz.py `ThreadStream` and the collatz7.py
`VerticalNumberStream` — never reports the terminal offscreen/Done state
while its visible buffer is non-empty, and its emission-done flag implies
the emit cursor has reached the end of `digits`; hence a stream is removed
only once all digits have been emitted and the buffer has drained. -/
theorem stream_never_done_with_nonempty_buffer
    (v1 : ℤ) (c1 cf1 px1 sh1 : ℕ) (rps1 : ℚ) (gap1 trig1 : ℕ) (dts1 : List ℚ)
    (v2 : ℤ) (c2 cf2 px2 sh2 : ℕ) (rps2 : ℚ) (gap2 : ℕ) (dts2 : List ℚ) :
    ((applyUpdates dts1 (ThreadStream.init v1 c1 cf1 px1 sh1 rps1 gap1 trig1)).char_buffer ≠ [] →
      (applyUpdates dts1 (ThreadStream.init v1 c1 cf1 px1 sh1 rps1 gap1 trig1)).offscreen = false) ∧
    ((applyUpdates dts1 (ThreadStream.init v1 c1 cf1 px1 sh1 rps1 gap1 trig1)).done_emitting = true →
      (applyUpdates dts1 (ThreadStream.init v1 c1 cf1 px1 sh1 rps1 gap1 trig1)).emit_index =
        (applyUpdates dts1 (ThreadStream.init v1 c1 cf1 px1 sh1 rps1 gap1 trig1)).digits.length) ∧
    ((vApplyUpdates dts2 (VStream.init v2 c2 cf2 px2 sh2 rps2 gap2)).char_buffer ≠ [] →
      (vApplyUpdates dts2 (VStream.init v2 c2 cf2 px2 sh2 rps2 gap2)).offscreen = false) ∧
    ((vApplyUpdates dts2 (VStream.init v2 c2 cf2 px2 sh2 rps2 gap2)).done_emitting = true →
      (vApplyUpdates dts2 (VStream.init v2 c2 cf2 px2 sh2 rps2 gap2)).emit_index =
        (vApplyUpdates dts2 (VStream.init v2 c2 cf2 px2 sh2 rps2 gap2)).digits.length) := by
  refine ⟨fun hb => ?_, ?_, fun hb => ?_, ?_⟩
  · unfold ThreadStream.offscreen
    cases hx : (applyUpdates dts1 (ThreadStream.init v1 c1 cf1 px1 sh1 rps1 gap1 trig1)).char_buffer with
    | nil => exact absurd hx hb
    | cons y ys => simp [hx]
  · exact (streamInv_applyUpdates dts1
      (streamInv_init v1 c1 cf1 px1 sh1 rps1 gap1 trig1)).2
  · unfold VStream.offscreen
    cases hx : (vApplyUpdates dts2 (VStream.init v2 c2 cf2 px2 sh2 rps2 gap2)).char_buffer with
    | nil => exact absurd hx hb
    | cons y ys => simp [hx]
  · exact (vStreamInv_vApplyUpdates dts2
      (vStreamInv_init v2 c2 cf2 px2 sh2 rps2 gap2)).2

/-- Witness for C3: the value-27 collatz.py stream after one update has a
non-empty buffer and is not offscreen; after four updates its done flag is
up and the cursor sits at the end of the two digits. The small collatz7
stream likewise after one and after three updates. -/
theorem stream_never_done_with_nonempty_buffer_witness :
    ((applyUpdates [1] (ThreadStream.init 27 0 4 10 720 1 0 2)).char_buffer ≠ [] ∧
      (applyUpdates [1] (ThreadStream.init 27 0 4 10 720 1 0 2)).offscreen = false) ∧
    ((applyUpdates [1, 1, 1, 1] (ThreadStream.init 27 0 4 10 720 1 0 2)).done_emitting = true ∧
      (applyUpdates [1, 1, 1, 1] (ThreadStream.init 27 0 4 10 720 1 0 2)).emit_index =
        (applyUpdates [1, 1, 1, 1] (ThreadStream.init 27 0 4 10 720 1 0 2)).digits.length) ∧
    ((vApplyUpdates [1] (VStream.init 1 0 1 10 5 1 0)).char_buffer ≠ [] ∧
      (vApplyUpdates [1] (VStream.init 1 0 1 10 5 1 0)).offscreen = false) ∧
    ((vApplyUpdates [1, 1, 1] (VStream.init 1 0 1 10 5 1 0)).done_emitting = true ∧
      (vApplyUpdates [1, 1, 1] (VStream.init 1 0 1 10 5 1 0)).emit_index =
        (vApplyUpdates [1, 1, 1] (VStream.init 1 0 1 10 5 1 0)).digits.length) := by
  have e1 : applyUpdates [1] (ThreadStream.init 27 0 4 10 720 1 0 2) =
      { value := 27, digits := ['2','7'], column := 0, row_px := 10, screen_h := 720,
        rows_per_sec := 1, digit_gap_rows := 0, trigger_emits := 2,
        head_row := 1, row_accum := 0, rows_until_next_digit := 0,
        emit_index := 1, emitted_total := 1, done_emitting := false,
        spawned_next := false, char_buffer := ['2'] } := by
    show ThreadStream.update (ThreadStream.init 27 0 4 10 720 1 0 2) 1 = _
    rw [ts27_init, ts27_u1]
  have e4 : applyUpdates [1, 1, 1, 1] (ThreadStream.init 27 0 4 10 720 1 0 2) =
      { value := 27, digits := ['2','7'], column := 0, row_px := 10, screen_h := 720,
        rows_per_sec := 1, digit_gap_rows := 0, trigger_emits := 2,
        head_row := 4, row_accum := 0, rows_until_next_digit := 0,
        emit_index := 2, emitted_total := 2, done_emitting := true,
        spawned_next := false, char_buffer := ['7','2'] } := by
    show ThreadStream.update (ThreadStream.update (ThreadStream.update
      (ThreadStream.update (ThreadStream.init 27 0 4 10 720 1 0 2) 1) 1) 1) 1 = _
    rw [ts27_init, ts27_u1, ts27_u2, ts27_u3, ts27_u4]
  have f1 : vApplyUpdates [1] (VStream.init 1 0 1 10 5 1 0) =
      { value := 1, digits := ['1'], column := 0, row_px := 10, screen_h := 5,
        rows_per_sec := 1, digit_gap_rows := 0,
        head_row := -1, row_accum := 0, rows_until_next_digit := 1,
        emit_index := 1, done_emitting := false,
        spawned_next := false, char_buffer := ['1'] } := by
    show VStream.update (VStream.init 1 0 1 10 5 1 0) 1 = _
    rw [vs1_init, vs1_u1]
  have f3 : vApplyUpdates [1, 1, 1] (VStream.init 1 0 1 10 5 1 0) =
      { value := 1, digits := ['1'], column := 0, row_px := 10, screen_h := 5,
        rows_per_sec := 1, digit_gap_rows := 0,
        head_row := 1, row_accum := 0, rows_until_next_digit := 0,
        emit_index := 1, done_emitting := true,
        spawned_next := false, char_buffer := [] } := by
    show VStream.update (VStream.update (VStream.update (VStream.init 1 0 1 10 5 1 0) 1) 1) 1 = _
    rw [vs1_init, vs1_u1, vs1_u2, vs1_u3]
  have hb1 : (applyUpdates [1] (ThreadStream.init 27 0 4 10 720 1 0 2)).char_buffer ≠ [] := by
    rw [e1]; decide
  have hd4 : (applyUpdates [1, 1, 1, 1] (ThreadStream.init 27 0 4 10 720 1 0 2)).done_emitting = true := by
    rw [e4]
  have hv1 : (vApplyUpdates [1] (VStream.init 1 0 1 10 5 1 0)).char_buffer ≠ [] := by
    rw [f1]; decide
  have hv3 : (vApplyUpdates [1, 1, 1] (VStream.init 1 0 1 10 5 1 0)).done_emitting = true := by
    rw [f3]
  refine ⟨⟨hb1, ?_⟩, ⟨hd4, ?_⟩, ⟨hv1, ?_⟩, ⟨hv3, ?_⟩⟩
  · exact (stream_never_done_with_nonempty_buffer 27 0 4 10 720 1 0 2 [1]
      1 0 1 10 5 1 0 [1]).1 hb1
  · exact (stream_never_done_with_nonempty_buffer 27 0 4 10 720 1 0 2 [1, 1, 1, 1]
      1 0 1 10 5 1 0 [1]).2.1 hd4
  · exact (stream_never_done_with_nonempty_buffer 27 0 4 10 720 1 0 2 [1]
      1 0 1 10 5 1 0 [1]).2.2.1 hv1
  · exact (stream_never_done_with_nonempty_buffer 27 0 4 10 720 1 0 2 [1]
      1 0 1 10 5 1 0 [1, 1, 1]).2.2.2 hv3

/-- Claim C4: once `wants_next_spawn` has returned true and the request
has been consumed by `mark_spawned`, every later `wants_next_spawn` call
returns false for the rest of the stream's life — after any further
sequence of updates — even though the emitted-count trigger condition
stays satisfied. -/
theorem spawn_request_not_retriggered (s : ThreadStream) (dts : List ℚ)
    (h : s.wants_next_spawn = true) :
    (applyUpdates dts s.mark_spawned).wants_next_spawn = false := by
  have hs : (applyUpdates dts s.mark_spawned).spawned_next = true := by
    rw [(applyUpdates_fields dts s.mark_spawned).2.1]
    rfl
  unfold ThreadStream.wants_next_spawn
  rw [hs]
  rfl

/-- Witness for C4: the value-27 stream wants a spawn after two updates;
after consuming the request and one more update the want is gone. -/
theorem spawn_request_not_retriggered_witness :
    (applyUpdates [1, 1] (ThreadStream.init 27 0 4 10 720 1 0 2)).wants_next_spawn = true ∧
    (applyUpdates [1]
      ((applyUpdates [1, 1] (ThreadStream.init 27 0 4 10 720 1 0 2)).mark_spawned)).wants_next_spawn
      = false := by
  have e2 : applyUpdates [1, 1] (ThreadStream.init 27 0 4 10 720 1 0 2) =
      { value := 27, digits := ['2','7'], column := 0, row_px := 10, screen_h := 720,
        rows_per_sec := 1, digit_gap_rows := 0, trigger_emits := 2,
        head_row := 2, row_accum := 0, rows_until_next_digit := 1,
        emit_index := 2, emitted_total := 2, done_emitting := false,
        spawned_next := false, char_buffer := ['7','2'] } := by
    show ThreadStream.update (ThreadStream.update (ThreadStream.init 27 0 4 10 720 1 0 2) 1) 1 = _
    rw [ts27_init, ts27_u1, ts27_u2]
  have hw : (applyUpdates [1, 1] (ThreadStream.init 27 0 4 10 720 1 0 2)).wants_next_spawn = true := by
    rw [e2]; decide
  exact ⟨hw, spawn_request_not_retriggered _ [1] hw⟩

/-- Claim C6: the §8.5 scenario — value 27 (digits 2,7), no digit gap,
one row per second, unit time steps: after the 1st update the buffer holds
exactly the digit 2 and no spawn is wanted yet; after the 2nd update it
holds 7,2 head-first, the stream is Draining, the count-based trigger of
threshold 2 makes `wants_next_spawn` true exactly then, and the derived
child value is `collatz_step 27 = 82`. -/
theorem seeded_27_trace_matches_spec :
    (applyUpdates [1] (ThreadStream.init 27 0 4 10 720 1 0 2)).char_buffer = ['2'] ∧
    (applyUpdates [1] (ThreadStream.init 27 0 4 10 720 1 0 2)).wants_next_spawn = false ∧
    (applyUpdates [1, 1] (ThreadStream.init 27 0 4 10 720 1 0 2)).char_buffer = ['7', '2'] ∧
    (applyUpdates [1, 1] (ThreadStream.init 27 0 4 10 720 1 0 2)).lifecycleState =
      LifecycleState.Draining ∧
    (applyUpdates [1, 1] (ThreadStream.init 27 0 4 10 720 1 0 2)).wants_next_spawn = true ∧
    spawn_child_value (applyUpdates [1, 1] (ThreadStream.init 27 0 4 10 720 1 0 2)) = 82 := by
  have e1 : applyUpdates [1] (ThreadStream.init 27 0 4 10 720 1 0 2) =
      { value := 27, digits := ['2','7'], column := 0, row_px := 10, screen_h := 720,
        rows_per_sec := 1, digit_gap_rows := 0, trigger_emits := 2,
        head_row := 1, row_accum := 0, rows_until_next_digit := 0,
        emit_index := 1, emitted_total := 1, done_emitting := false,
        spawned_next := false, char_buffer := ['2'] } := by
    show ThreadStream.update (ThreadStream.init 27 0 4 10 720 1 0 2) 1 = _
    rw [ts27_init, ts27_u1]
  have e2 : applyUpdates [1, 1] (ThreadStream.init 27 0 4 10 720 1 0 2) =
      { value := 27, digits := ['2','7'], column := 0, row_px := 10, screen_h := 720,
        rows_per_sec := 1, digit_gap_rows := 0, trigger_emits := 2,
        head_row := 2, row_accum := 0, rows_until_next_digit := 1,
        emit_index := 2, emitted_total := 2, done_emitting := false,
        spawned_next := false, char_buffer := ['7','2'] } := by
    show ThreadStream.update (ThreadStream.update (ThreadStream.init 27 0 4 10 720 1 0 2) 1) 1 = _
    rw [ts27_init, ts27_u1, ts27_u2]
  refine ⟨by rw [e1], by rw [e1]; decide, by rw [e2], by rw [e2]; decide,
    by rw [e2]; decide, by rw [e2]; decide⟩

/-- Helper: the generator always yields at least one term. -/
theorem genList_ne_nil (fuel : ℕ) (n : ℤ) : genList fuel n ≠ [] := by
  cases fuel with
  | zero => simp [genList]
  | succ f => simp [genList]

/-- Helper: `getLast?` of a cons with non-empty tail is `getLast?` of the
tail. -/
theorem getLast?_cons_of_ne_nil {α : Type} {l : List α} (a : α) (h : l ≠ []) :
    (a :: l).getLast? = l.getLast? := by
  cases l with
  | nil => exact absurd rfl h
  | cons b m => exact List.getLast?_cons_cons

/-- Claim C5 (amended): the generators of colltaz1.py and updated.py are
finite and end at 1 — when the Collatz iteration from `n` reaches 1 in
`k` steps, the yields are a list whose last element is 1 of length at most
`k + 1`, i.e. the generator stops at the first 1 and does not continue.
The collatz3.py generator instead reseeds and continues after yielding 1;
see `collatz3_generator_restarts_after_one_cex`. -/
theorem generator_finite_ending_at_one (n : ℤ) (k fuel : ℕ)
    (hk : k ≤ fuel) (h1 : collatz_step^[k] n = 1) :
    (genList fuel n).getLast? = some 1 ∧ (genList fuel n).length ≤ k + 1 := by
  induction k generalizing n fuel with
  | zero =>
    rw [Function.iterate_zero_apply] at h1
    subst h1
    cases fuel with
    | zero => exact ⟨by simp [genList], by simp [genList]⟩
    | succ f => exact ⟨by simp [genList], by simp [genList]⟩
  | succ k ih =>
    by_cases hn : n = 1
    · subst hn
      cases fuel with
      | zero => exact ⟨by simp [genList], by simp [genList]⟩
      | succ f => exact ⟨by simp [genList], by simp [genList]⟩
    · cases fuel with
      | zero => omega
      | succ f =>
        have h2 : collatz_step^[k] (collatz_step n) = 1 := by
          rwa [← Function.iterate_succ_apply]
        obtain ⟨g1, g2⟩ := ih (collatz_step n) f (by omega) h2
        rw [genList, if_neg hn]
        refine ⟨?_, ?_⟩
        · rw [getLast?_cons_of_ne_nil n (genList_ne_nil f (collatz_step n))]
          exact g1
        · simp only [List.length_cons]
          omega

/-- Witness for C5 at start value 2, which reaches 1 in one step. -/
theorem generator_finite_ending_at_one_witness :
    (1 ≤ 1 ∧ collatz_step^[1] (2 : ℤ) = 1) ∧
    (genList 1 2).getLast? = some 1 ∧ (genList 1 2).length ≤ 1 + 1 :=
  ⟨⟨by decide, by decide⟩, generator_finite_ending_at_one 2 1 1 (by decide) (by decide)⟩

/-- Claim C5 counterexample: the collatz3.py generator does not stop at 1.
Started at 1 (with the reseed draw `random.getrandbits(128)` returning 4,
so the new seed is `4 | 1 = 5`), it yields 1 and then yields 5: the
sequence continues after yielding 1, so it is not a finite sequence whose
last term is 1. -/
theorem collatz3_generator_restarts_after_one_cex :
    collatz3_state (fun _ => 4) 1 0 = 1 ∧ collatz3_state (fun _ => 4) 1 1 = 5 := by
  decide

/-- Claim C9 counterexample: updated.py accepts a fixed start of 5 — one
decimal digit, fewer than the default minimum of 10 — and proceeds with
`fixed_start = 5` instead of aborting, contradicting the claim that a
fixedStart shorter than minDigits is detected at startup and aborts. -/
theorem updated_accepts_short_fixed_start_cex :
    pyDigitCount (Int.natAbs 5) < 10 ∧
    updated_validate (some (some 5)) = some (some 5) := by
  decide

/-- Claim C9 (amended): collatz2.py rejects at startup — before any
column state is constructed — both a malformed `--start` (parse failure)
and a parsed start shorter than `max(10, minDigits)` decimal digits;
updated.py rejects only the malformed case. -/
theorem startup_validation_behavior (md : ℕ) (n : ℤ)
    (h : pyDigitCount n.natAbs < max 10 md) :
    collatz2_validate (some none) md = none ∧
    collatz2_validate (some (some n)) md = none ∧
    updated_validate (some none) = none := by
  refine ⟨rfl, ?_, rfl⟩
  simp only [collatz2_validate]
  rw [if_pos h]

/-- Witness for C9 on the five-digit start 12345 with minDigits 10. -/
theorem startup_validation_behavior_witness :
    pyDigitCount (Int.natAbs 12345) < max 10 10 ∧
    collatz2_validate (some none) 10 = none ∧
    collatz2_validate (some (some 12345)) 10 = none ∧
    updated_validate (some none) = none :=
  ⟨by decide,
   (startup_validation_behavior 10 12345 (by decide)).1,
   (startup_validation_behavior 10 12345 (by decide)).2.1,
   (startup_validation_behavior 10 12345 (by decide)).2.2⟩

/-- Claim C10: every integer the collatz.py engine ever holds as a stream
value — and therefore every integer it passes to `collatz_step` when
spawning a child — is positive: fixed seeds are clamped to at least 1,
random seeds are at least `10^(k-1) ≥ 1`, and `collatz_step` maps
positive integers to positive integers, so positivity is preserved from
parent to child. -/
theorem engine_values_always_positive (start : Option ℤ) (md xd : ℕ)
    (n : ℤ) (h : EngineValue start md xd n) : 0 < n := by
  induction h with
  | seed r1 r2 =>
    unfold seed_value
    cases start with
    | some s =>
      dsimp only
      have := le_max_left (1 : ℤ) s
      omega
    | none =>
      dsimp only
      have hpos : 0 < 10 ^ (max 10 md + r1 % (max (max 10 md) xd - max 10 md + 1) - 1) :=
        pow_pos (by norm_num) _
      exact_mod_cast Nat.lt_of_lt_of_le hpos (Nat.le_add_right _ _)
  | child hn ih => exact collatz_step_pos ih

/-- Witness for C10: with fixed start 27 the engine holds 27 and, after
one spawn, 82; both are positive. -/
theorem engine_values_always_positive_witness :
    EngineValue (some 27) 10 26 82 ∧ 0 < (82 : ℤ) := by
  have h27 : EngineValue (some 27) 10 26 27 := by
    have h : EngineValue (some 27) 10 26 (seed_value (some 27) 10 26 0 0) :=
      EngineValue.seed 0 0
    have hv : seed_value (some 27) 10 26 0 0 = 27 := by decide
    rwa [hv] at h
  have h82 : EngineValue (some 27) 10 26 82 := by
    have h := EngineValue.child h27
    have hv : collatz_step 27 = 82 := by decide
    rwa [hv] at h
  exact ⟨h82, engine_values_always_positive (some 27) 10 26 82 h82⟩
